import Mathlib

/-!
Verification of the image-upload application.

The client widget (component `UploadImage`) keeps an ordered selection of
files, deduplicates them by the composite key `name_size_lastModified`,
caps the selection at `MAX_IMAGES` files and `MAX_TOTAL_BYTES` bytes, and
submits the selection plus a text prompt to the server route
`POST /api/upload`, which forwards the request to an external
generative-image API and maps its response onto a JSON contract.

Files are modelled by the metadata the widget logic reads (`name`, `size`,
`lastModified`, MIME `type`); DOM side effects (`URL.createObjectURL`) are
modelled by an arbitrary URL-forming function passed as a parameter.
-/

namespace AiApp

/-- JS `String.prototype.startsWith`, on the character sequence. -/
def jsStartsWith (s p : String) : Bool :=
  p.data.isPrefixOf s.data

/-- JS `String.prototype.trim`: strip whitespace from both ends. -/
def jsTrim (s : String) : String :=
  ⟨((s.data.dropWhile Char.isWhitespace).reverse.dropWhile
      Char.isWhitespace).reverse⟩

/-- JS `String.prototype.toUpperCase`, character by character. -/
def jsToUpper (s : String) : String :=
  ⟨s.data.map Char.toUpper⟩

/-- Metadata of a browser `File` object as read by the widget logic. -/
structure FileMeta where
  name : String
  size : Nat
  lastModified : Nat
  type : String
deriving DecidableEq

/-- `const MAX_IMAGES = 10` in the widget. -/
def MAX_IMAGES : Nat := 10

/-- `const MAX_TOTAL_BYTES = 25 * 1024 * 1024` in the widget. -/
def MAX_TOTAL_BYTES : Nat := 25 * 1024 * 1024

/-- The deduplication key built in `selectFiles`:
the template string `${f.name}_${f.size}_${f.lastModified}`. -/
def fileKey (f : FileMeta) : String :=
  f.name ++ "_" ++ toString f.size ++ "_" ++ toString f.lastModified

/-- The image filter `f.type.startsWith("image/")` used by `selectFiles`. -/
def isImageTyped (f : FileMeta) : Bool :=
  jsStartsWith f.type "image/"

/-- The deduplication loop of `selectFiles`: `seen` is the set of keys
already encountered (the JS `Set` is modelled as the list of its
elements); a file is kept exactly when its key is new. -/
def dedupGo (seen : List String) : List FileMeta → List FileMeta
  | [] => []
  | f :: rest =>
    let key := fileKey f
    if key ∈ seen then dedupGo seen rest
    else f :: dedupGo (key :: seen) rest

/-- Deduplication of the combined list, starting from an empty `seen` set. -/
def dedupByKey (l : List FileMeta) : List FileMeta :=
  dedupGo [] l

/-- `deduped.reduce((acc, f) => acc + f.size, 0)`: total byte size. -/
def totalBytesOf (l : List FileMeta) : Nat :=
  l.foldl (fun acc f => acc + f.size) 0

/-- The React state of the `UploadImage` component that the modelled
handlers read or write. -/
structure WidgetState where
  selectedFiles : List FileMeta
  previewUrls : List String
  errorMessage : Option String
  instructions : String
  submitError : Option String
  submitSuccess : Option String
  resultImage : Option String
deriving DecidableEq

/-- The initial component state: empty selection, empty prompt, no
messages, no result. -/
def initialState : WidgetState :=
  { selectedFiles := []
    previewUrls := []
    errorMessage := none
    instructions := ""
    submitError := none
    submitSuccess := none
    resultImage := none }

/-- The warning set when more than `MAX_IMAGES` files are selected:
`You can upload up to ${MAX_IMAGES} images.` -/
def countWarning : String :=
  "You can upload up to " ++ toString MAX_IMAGES ++ " images."

/-- The rejection message when the total size cap is exceeded; the widget
renders `(MAX_TOTAL_BYTES / (1024 * 1024)).toFixed(1)`, i.e. `25.0`. -/
def sizeMessage : String :=
  "Total size exceeds 25.0 MB. Please remove some images or use smaller files."

/-- The message set when the incoming batch holds no image-typed file. -/
def invalidFilesMessage : String :=
  "Please select valid image files."

/-- `selectFiles(filesLike, append)` of the widget.  `mkUrl` stands for
`URL.createObjectURL`.  `filesLike = none` models a `null` argument.
Mirrors the source: clear `errorMessage` and `resultImage`; return on
`null`; filter to image-typed files and reject an empty result; merge with
the prior selection when appending; deduplicate by `fileKey`; truncate to
`MAX_IMAGES` with a warning; reject without updating the selection when
the total size of the (truncated) candidate exceeds `MAX_TOTAL_BYTES`;
otherwise store the candidate and rebuild the preview URLs from it. -/
def selectFiles (mkUrl : FileMeta → String) (s : WidgetState)
    (filesLike : Option (List FileMeta)) (append : Bool) : WidgetState :=
  let s1 := { s with errorMessage := none, resultImage := none }
  match filesLike with
  | none => s1
  | some fl =>
    let incoming := fl.filter isImageTyped
    if incoming.isEmpty then
      { s1 with errorMessage := some invalidFilesMessage }
    else
      let base := if append = true ∧ s.selectedFiles.length > 0
        then s.selectedFiles else []
      let deduped := dedupByKey (base ++ incoming)
      let truncated := if deduped.length > MAX_IMAGES
        then deduped.take MAX_IMAGES else deduped
      let s2 := if deduped.length > MAX_IMAGES
        then { s1 with errorMessage := some countWarning } else s1
      if totalBytesOf truncated > MAX_TOTAL_BYTES then
        { s2 with errorMessage := some sizeMessage }
      else
        { s2 with
            selectedFiles := truncated
            previewUrls := truncated.map mkUrl }

/-- The combined list of lines 62-64 of the component: the prior selection
(when appending to a nonempty one) followed by the incoming image-typed
files. -/
def combinedList (s : WidgetState) (fl : List FileMeta)
    (append : Bool) : List FileMeta :=
  (if append = true ∧ s.selectedFiles.length > 0
    then s.selectedFiles else []) ++ fl.filter isImageTyped

/-- The selection `selectFiles` is about to adopt, read off lines 62-82 of
the component: filter, merge, deduplicate, truncate.  The total-size check
of lines 84-93 is evaluated on exactly this list. -/
def candidateSelection (s : WidgetState) (fl : List FileMeta)
    (append : Bool) : List FileMeta :=
  let deduped := dedupByKey (combinedList s fl append)
  if deduped.length > MAX_IMAGES then deduped.take MAX_IMAGES else deduped

/-- `handleClear()` of the widget: drops the selection, previews, result
and all messages; the prompt text is kept. -/
def handleClear (s : WidgetState) : WidgetState :=
  { s with
      selectedFiles := []
      previewUrls := []
      resultImage := none
      submitError := none
      submitSuccess := none
      errorMessage := none }

/-- The multipart payload `handleSubmit` builds for `fetch("/api/upload")`:
every selected file under `files`, the first one also under `file`, and
the prompt text. -/
structure SubmitPayload where
  files : List FileMeta
  file : Option FileMeta
  prompt : String
deriving DecidableEq

/-- The validation prefix of `handleSubmit`, up to the point where the
network request is issued.  The second component is `some payload` when
the `fetch` call is reached with that payload, `none` when the handler
returns beforehand (no network call). -/
def handleSubmit (s : WidgetState) : WidgetState × Option SubmitPayload :=
  let s1 := { s with submitError := none, submitSuccess := none }
  if s.selectedFiles.length = 0 ∧ (jsTrim s.instructions).isEmpty then
    ({ s1 with submitError := some "Enter a prompt or upload images." }, none)
  else
    (s1, some { files := s.selectedFiles
                file := s.selectedFiles.head?
                prompt := s.instructions })

/-- Modelled from the spec wording of the deduplication step: keep the
first occurrence of each key, drop every later file whose key duplicates
an earlier one, preserving the relative order of the kept files.  Compared
against the source loop `dedupByKey` below. -/
def keepFirstByKey : List FileMeta → List FileMeta
  | [] => []
  | f :: rest =>
    f :: (keepFirstByKey rest).filter (fun g => fileKey g != fileKey f)

/-!
Server route `POST /api/upload` (the multi-file route).  The multipart
form, the environment variable `GEMINI_API_KEY` and the outcome of the
single outbound call to the external generation API are the inputs; the
HTTP status and JSON body are the output.  Byte buffers are carried as
their base64 rendering (the `data` string), together with their byte
length, since the route only forwards the encoding and sums the lengths.
-/

/-- A multipart `File` part as the route reads it: byte length of its
buffer, declared MIME type, and (base64-encoded) content. -/
structure ServerFile where
  size : Nat
  type : String
  data : String
deriving DecidableEq

/-- A multipart form entry: a string field or a file. -/
inductive FormPart where
  | str (s : String)
  | file (f : ServerFile)
deriving DecidableEq

/-- The multipart form of the request: the `prompt` field (`none` when
absent or not a string), the entries of `formData.getAll("files")`, and
`formData.get("file")` (`none` when absent). -/
structure UploadForm where
  prompt : Option String
  filesField : List FormPart
  fileField : Option FormPart
deriving DecidableEq

/-- Lines 11-17 of the route: collect the `File` entries of `files`;
when there are none, fall back to the single `file` field. -/
def formFiles (form : UploadForm) : List ServerFile :=
  let files := form.filesField.filterMap fun p =>
    match p with
    | FormPart.file f => some f
    | FormPart.str _ => none
  if files.isEmpty then
    match form.fileField with
    | some (FormPart.file f) => [f]
    | _ => []
  else files

/-- `typeof promptPart === "string" ? promptPart.trim() : ""`. -/
def promptTextRaw (form : UploadForm) : String :=
  match form.prompt with
  | some s => jsTrim s
  | none => ""

/-- `promptTextRaw.length > 0 && promptTextRaw !== "null" &&
promptTextRaw !== "undefined"`. -/
def hasUserPrompt (form : UploadForm) : Bool :=
  let raw := promptTextRaw form
  decide (raw.length > 0) && raw != "null" && raw != "undefined"

/-- The fixed default prompt applied when several images arrive without
user instructions. -/
def defaultMergePrompt : String :=
  "Merge the provided images into a single cohesive image. Blend them naturally, align perspectives, and harmonize colors. Return only the merged image."

/-- `effectivePrompt`: the user prompt when present, the default merge
prompt when more than one file arrived, empty otherwise. -/
def effectivePrompt (form : UploadForm) : String :=
  if hasUserPrompt form then promptTextRaw form
  else if (formFiles form).length > 1 then defaultMergePrompt
  else ""

/-- One entry of `fileDatas`: base64 data plus `f.type || "image/png"`. -/
structure InlinePayload where
  data : String
  mimeType : String
deriving DecidableEq

/-- The `fileDatas` array built from the files. -/
def fileDatas (form : UploadForm) : List InlinePayload :=
  (formFiles form).map fun f =>
    { data := f.data
      mimeType := if f.type = "" then "image/png" else f.type }

/-- The running sum `totalBytes += buf.byteLength` over the files. -/
def routeTotalBytes (form : UploadForm) : Nat :=
  (formFiles form).foldl (fun acc f => acc + f.size) 0

/-- One item of the `contents` array sent to the external API. -/
inductive ContentItem where
  | text (t : String)
  | inlineData (mimeType : String) (data : String)
deriving DecidableEq

/-- The `contents` array: the effective prompt as a text item when it is
nonempty (JS truthiness of a string), followed by one inline-data item per
file. -/
def requestContents (form : UploadForm) : List ContentItem :=
  (if effectivePrompt form != "" then [ContentItem.text (effectivePrompt form)]
   else [])
    ++ (fileDatas form).map fun fd => ContentItem.inlineData fd.mimeType fd.data

/-- JS truthiness of an optional string: present and nonempty. -/
def strTruthy : Option String → Bool
  | some s => !s.isEmpty
  | none => false

/-- `inlineData` of a response part. -/
structure InlineData where
  data : Option String
  mimeType : Option String
deriving DecidableEq

/-- One part of the first candidate content. -/
structure RespPart where
  text : Option String
  inlineData : Option InlineData
deriving DecidableEq

/-- The `content` object of a candidate. -/
structure ContentBody where
  parts : Option (List RespPart)
deriving DecidableEq

/-- A response candidate.  `safetyRatings` is carried as the string
`JSON.stringify` would produce for it; `none` models an absent (falsy)
rating array. -/
structure Candidate where
  finishReason : Option String
  finishMessage : Option String
  content : Option ContentBody
  safetyRatings : Option String
deriving DecidableEq

/-- The `promptFeedback` object of a response. -/
structure PromptFeedback where
  blockReason : Option String
  blockReasonMessage : Option String
deriving DecidableEq

/-- The external API response as the route reads it. -/
structure GenResponse where
  promptFeedback : Option PromptFeedback
  candidates : Option (List Candidate)
deriving DecidableEq

/-- The outcome of `ai.models.generateContent`: a thrown error carrying an
optional numeric `status` and optional `message`, or a response object. -/
inductive ExtOutcome where
  | fail (status : Option Int) (message : Option String)
  | ok (resp : GenResponse)
deriving DecidableEq

/-- The JSON body of the route response. -/
inductive RouteBody where
  | err (msg : String)
  | success (ok : Bool) (size : Option Nat) (imageBase64 : String)
      (mimeType : String)
deriving DecidableEq

/-- The finish reasons treated as policy blocks. -/
def blockedFinishReasons : List String :=
  ["SAFETY", "BLOCKLIST", "PROHIBITED", "RECITATION", "OTHER", "ERROR"]

/-- `response.candidates?.[0]`. -/
def firstCandidateOf (resp : GenResponse) : Option Candidate :=
  (resp.candidates.getD []).head?

/-- `firstCandidate?.content?.parts ?? []`. -/
def candidateParts (c : Option Candidate) : List RespPart :=
  match c with
  | some cand =>
    match cand.content with
    | some body => body.parts.getD []
    | none => []
  | none => []

/-- Truthiness of `p.inlineData?.data` for a response part. -/
def partInlineTruthy (p : RespPart) : Bool :=
  match p.inlineData with
  | some d => strTruthy d.data
  | none => false

/-- `firstCandidate?.safetyRatings ? " Details: ..." : ""`. -/
def safetyDetailsOf (c : Option Candidate) : String :=
  match c with
  | some cand =>
    match cand.safetyRatings with
    | some sr => " Details: " ++ sr
    | none => ""
  | none => ""

/-- Truthiness of `promptFeedback?.blockReason`. -/
def blockReasonTruthy (pf : Option PromptFeedback) : Bool :=
  match pf with
  | some p => strTruthy p.blockReason
  | none => false

/-- The early-return message for a blocked request (lines 115-119). -/
def blockedRequestMessage (p : PromptFeedback) : String :=
  if strTruthy p.blockReasonMessage then
    "Request blocked: " ++ p.blockReason.getD "" ++ " - "
      ++ p.blockReasonMessage.getD ""
  else
    "Request blocked: " ++ p.blockReason.getD ""

/-- The policy-block test on the first candidate (lines 135-145):
a truthy finish reason whose uppercase form is in the blocked list. -/
def finishBlocked (c : Option Candidate) : Bool :=
  match c with
  | some cand =>
    match cand.finishReason with
    | some fr => !fr.isEmpty && blockedFinishReasons.contains (jsToUpper fr)
    | none => false
  | none => false

/-- The `reasons` array built when no image part is present
(lines 173-184), in source order: block reason, finish reason, finish
message, first model text message, safety details. -/
def noImageReasons (pf : Option PromptFeedback) (c : Option Candidate) :
    List String :=
  let parts := candidateParts c
  let textMsg : Option String :=
    (parts.find? fun p => strTruthy p.text).bind fun p => p.text
  let finishReason : Option String := c.bind fun cand => cand.finishReason
  let finishMessage : Option String := c.bind fun cand => cand.finishMessage
  let safetyDetails := safetyDetailsOf c
  (if blockReasonTruthy pf then
    [match pf with
     | some p =>
       if strTruthy p.blockReasonMessage then
         "Blocked: " ++ p.blockReason.getD "" ++ " - "
           ++ p.blockReasonMessage.getD ""
       else "Blocked: " ++ p.blockReason.getD ""
     | none => ""]
   else [])
  ++ (if strTruthy finishReason
      then ["Finish reason: " ++ finishReason.getD ""] else [])
  ++ (if strTruthy finishMessage
      then ["Message: " ++ finishMessage.getD ""] else [])
  ++ (if strTruthy textMsg
      then ["Model message: " ++ textMsg.getD ""] else [])
  ++ (if !safetyDetails.isEmpty then [safetyDetails] else [])

/-- `reasons.join(" | ")`, or the fallback text when no reason is
present. -/
def noImageMessage (pf : Option PromptFeedback) (c : Option Candidate) :
    String :=
  let rs := noImageReasons pf c
  if rs.isEmpty then "Model returned no image"
  else String.intercalate " | " rs

/-- The route `POST` handler, as a function of the parsed form, the
`GEMINI_API_KEY` environment value and the external-call outcome.
Returns the HTTP status and the JSON body.  The surrounding
`try ... catch` (a 500 on a thrown exception) has no counterpart because
the model is total. -/
def routePOST (form : UploadForm) (apiKey : Option String)
    (ext : ExtOutcome) : Nat × RouteBody :=
  match apiKey with
  | none => (500, RouteBody.err "Server misconfigured: GEMINI_API_KEY missing")
  | some _ =>
    if (requestContents form).isEmpty then
      (400, RouteBody.err "Provide a prompt or at least one image.")
    else
      match ext with
      | ExtOutcome.fail status message =>
        let msg := match message with
          | some m => if m.isEmpty then "Failed to generate image" else m
          | none => "Failed to generate image"
        let st : Nat := match status with
          | some n => if 400 ≤ n ∧ n < 600 then n.toNat else 502
          | none => 502
        (st, RouteBody.err msg)
      | ExtOutcome.ok resp =>
        let pf := resp.promptFeedback
        if blockReasonTruthy pf then
          (400, RouteBody.err (match pf with
            | some p => blockedRequestMessage p
            | none => ""))
        else
          let c := firstCandidateOf resp
          if finishBlocked c then
            (400, RouteBody.err ("Generation blocked by policy ("
              ++ (c.bind fun cand => cand.finishReason).getD "" ++ ")."
              ++ safetyDetailsOf c))
          else
            match (candidateParts c).find? partInlineTruthy with
            | some ip =>
              (200, RouteBody.success true
                (if routeTotalBytes form = 0 then none
                 else some (routeTotalBytes form))
                ((ip.inlineData.bind fun d => d.data).getD "")
                (let mt := ip.inlineData.bind fun d => d.mimeType
                 if strTruthy mt then mt.getD "" else "image/png"))
            | none => (400, RouteBody.err (noImageMessage pf c))

/-- The external call at line 83 is reached exactly when the API key is
present and neither early return (missing key, empty `contents`) fired. -/
def reachesExternalCall (form : UploadForm) (apiKey : Option String) : Bool :=
  apiKey.isSome && !(requestContents form).isEmpty

/-- The text part the route places into `contents`, if any: the first
`text` item. -/
def textOfItem : ContentItem → Option String
  | ContentItem.text t => some t
  | ContentItem.inlineData _ _ => none

/-- The text part of the outbound request. -/
def sentTextPart (form : UploadForm) : Option String :=
  (requestContents form).findSome? textOfItem

/-!
General lemmas about the deduplication loop.
-/

/-- Deduplication never lengthens a list. -/
theorem dedupGo_length_le (seen : List String) (l : List FileMeta) :
    (dedupGo seen l).length ≤ l.length := by
  induction l generalizing seen with
  | nil => simp [dedupGo]
  | cons f rest ih =>
    simp only [dedupGo, List.length_cons]
    split
    · exact Nat.le_succ_of_le (ih seen)
    · simpa using ih (fileKey f :: seen)

/-- Deduplication never lengthens a list. -/
theorem dedupByKey_length_le (l : List FileMeta) :
    (dedupByKey l).length ≤ l.length :=
  dedupGo_length_le [] l

/-- The deduplication loop computes the keep-the-first-occurrence
filter, relative to the keys already seen. -/
theorem dedupGo_eq_filter_keepFirst (seen : List String) (l : List FileMeta) :
    dedupGo seen l
      = (keepFirstByKey l).filter (fun g => !decide (fileKey g ∈ seen)) := by
  induction l generalizing seen with
  | nil => simp [dedupGo, keepFirstByKey]
  | cons f rest ih =>
    simp only [dedupGo, keepFirstByKey, List.filter_cons]
    by_cases h : fileKey f ∈ seen
    · simp only [h, if_true, decide_True, Bool.not_true, Bool.false_eq_true,
        if_false, ih seen, List.filter_filter]
      refine List.filter_congr fun g _ => ?_
      by_cases hg : fileKey g ∈ seen
      · simp [hg]
      · by_cases hgf : fileKey g = fileKey f
        · exact absurd (hgf ▸ h) hg
        · simp [hg, hgf]
    · simp only [h, if_false, decide_False, Bool.not_false, if_true,
        ih (fileKey f :: seen), List.filter_filter]
      refine congrArg (f :: ·) (List.filter_congr fun g _ => ?_)
      by_cases hgf : fileKey g = fileKey f
      · simp [hgf, List.mem_cons]
      · by_cases hg : fileKey g ∈ seen <;> simp [hgf, hg, List.mem_cons]

/-- The source loop `dedupByKey` and the keep-the-first-occurrence
description agree. -/
theorem dedupByKey_eq_keepFirstByKey (l : List FileMeta) :
    dedupByKey l = keepFirstByKey l := by
  rw [dedupByKey, dedupGo_eq_filter_keepFirst]
  simp

/-!
States reachable by the selection handlers, and concrete sample inputs.
-/

/-- Widget states reachable from the initial one by any sequence of
`selectFiles` and `handleClear` calls. -/
inductive Reachable : WidgetState → Prop
  | init : Reachable initialState
  | select (mkUrl : FileMeta → String) (s : WidgetState)
      (filesLike : Option (List FileMeta)) (append : Bool) :
      Reachable s → Reachable (selectFiles mkUrl s filesLike append)
  | clear (s : WidgetState) : Reachable s → Reachable (handleClear s)

/-- A concrete image-typed file of the given name and size. -/
def sampleFile (n : String) (sz : Nat) : FileMeta :=
  { name := n, size := sz, lastModified := 0, type := "image/png" }

/-- A concrete non-image file. -/
def textFile : FileMeta :=
  { name := "notes", size := 10, lastModified := 0, type := "text/plain" }

/-- A trivial stand-in for `URL.createObjectURL`. -/
def noUrl : FileMeta → String := fun _ => ""

/-- Eleven distinct 3 MB images: more than `MAX_IMAGES`, and the first ten
together already exceed `MAX_TOTAL_BYTES`. -/
def overBatch : List FileMeta :=
  [sampleFile "f1" 3000000, sampleFile "f2" 3000000, sampleFile "f3" 3000000,
   sampleFile "f4" 3000000, sampleFile "f5" 3000000, sampleFile "f6" 3000000,
   sampleFile "f7" 3000000, sampleFile "f8" 3000000, sampleFile "f9" 3000000,
   sampleFile "f10" 3000000, sampleFile "f11" 3000000]

/-- Eleven distinct small images: more than `MAX_IMAGES`, first ten within
the byte budget. -/
def capBatch : List FileMeta :=
  [sampleFile "g1" 1000, sampleFile "g2" 1000, sampleFile "g3" 1000,
   sampleFile "g4" 1000, sampleFile "g5" 1000, sampleFile "g6" 1000,
   sampleFile "g7" 1000, sampleFile "g8" 1000, sampleFile "g9" 1000,
   sampleFile "g10" 1000, sampleFile "g11" 1000]

/-- Ten small images followed by one 30 MB image: the whole batch exceeds
the byte budget, its first ten files do not. -/
def wideBatch : List FileMeta :=
  [sampleFile "h1" 1000, sampleFile "h2" 1000, sampleFile "h3" 1000,
   sampleFile "h4" 1000, sampleFile "h5" 1000, sampleFile "h6" 1000,
   sampleFile "h7" 1000, sampleFile "h8" 1000, sampleFile "h9" 1000,
   sampleFile "h10" 1000, sampleFile "h11" 30000000]

/-- Eleven distinct one-byte images. -/
def elevenBatch : List FileMeta :=
  [sampleFile "k1" 1, sampleFile "k2" 1, sampleFile "k3" 1,
   sampleFile "k4" 1, sampleFile "k5" 1, sampleFile "k6" 1,
   sampleFile "k7" 1, sampleFile "k8" 1, sampleFile "k9" 1,
   sampleFile "k10" 1, sampleFile "k11" 1]

/-!
Claim theorems about the selection manager.
-/

/-- C1: whenever the candidate selection (merged, deduplicated, truncated)
exceeds the `MAX_TOTAL_BYTES` budget, `selectFiles` sets an error message
and leaves both the selected-files list and the preview URLs exactly as
they were before the call. -/
theorem selectFiles_oversize_rejects (mkUrl : FileMeta → String)
    (s : WidgetState) (fl : List FileMeta) (append : Bool)
    (h : totalBytesOf (candidateSelection s fl append) > MAX_TOTAL_BYTES) :
    (selectFiles mkUrl s (some fl) append).selectedFiles = s.selectedFiles ∧
    (selectFiles mkUrl s (some fl) append).previewUrls = s.previewUrls ∧
    (selectFiles mkUrl s (some fl) append).errorMessage.isSome = true := by
  simp only [candidateSelection, combinedList] at h
  by_cases hemp : (fl.filter isImageTyped).isEmpty = true
  · simp [selectFiles, hemp]
  · simp only [selectFiles, hemp, Bool.false_eq_true, if_false]
    split_ifs <;> simp_all
    all_goals first
      | omega
      | (split at h <;> omega)

/-- C1 witness: one 30 MB image against the empty selection is rejected
and the empty selection survives. -/
theorem selectFiles_oversize_rejects_witness :
    totalBytesOf (candidateSelection initialState [sampleFile "big" 30000000]
       false) > MAX_TOTAL_BYTES ∧
    ((selectFiles noUrl initialState (some [sampleFile "big" 30000000])
        false).selectedFiles = initialState.selectedFiles ∧
     (selectFiles noUrl initialState (some [sampleFile "big" 30000000])
        false).previewUrls = initialState.previewUrls ∧
     (selectFiles noUrl initialState (some [sampleFile "big" 30000000])
        false).errorMessage.isSome = true) :=
  ⟨of_decide_eq_true rfl,
   selectFiles_oversize_rejects noUrl initialState _ false
     (of_decide_eq_true rfl)⟩

/-- C2 counterexample: eleven 3 MB images make the deduplicated combined
list longer than `MAX_IMAGES`, yet the selection is not the first ten
entries (they breach the byte budget, so the whole batch is rejected) and
the message is the size message, not the count warning. -/
theorem selectFiles_truncation_counterexample :
    (dedupByKey (combinedList initialState overBatch false)).length
      > MAX_IMAGES ∧
    ¬ ((selectFiles noUrl initialState (some overBatch) false).selectedFiles
        = (dedupByKey (combinedList initialState overBatch false)).take
            MAX_IMAGES ∧
       (selectFiles noUrl initialState (some overBatch) false).errorMessage
        = some countWarning) := by
  refine ⟨of_decide_eq_true rfl, ?_⟩
  rintro ⟨h1, h2⟩
  have h0 : (selectFiles noUrl initialState (some overBatch)
      false).errorMessage = some sizeMessage := rfl
  rw [h0] at h2
  exact absurd (Option.some.inj h2) (by decide)

/-- C2 (amended): when the deduplicated combined list holds more than
`MAX_IMAGES` files, the prior selection respects the count cap, and the
first `MAX_IMAGES` entries fit the byte budget, the resulting selection is
exactly those first `MAX_IMAGES` entries and the count warning is set. -/
theorem selectFiles_truncation_accepted (mkUrl : FileMeta → String)
    (s : WidgetState) (fl : List FileMeta) (append : Bool)
    (hprior : s.selectedFiles.length ≤ MAX_IMAGES)
    (hcount : (dedupByKey (combinedList s fl append)).length > MAX_IMAGES)
    (hsize : totalBytesOf ((dedupByKey (combinedList s fl append)).take
      MAX_IMAGES) ≤ MAX_TOTAL_BYTES) :
    (selectFiles mkUrl s (some fl) append).selectedFiles
      = (dedupByKey (combinedList s fl append)).take MAX_IMAGES ∧
    (selectFiles mkUrl s (some fl) append).errorMessage
      = some countWarning := by
  have hemp : (fl.filter isImageTyped).isEmpty = false := by
    rcases hval : fl.filter isImageTyped with _ | ⟨f, rest⟩
    · exfalso
      have hb := dedupByKey_length_le (combinedList s fl append)
      have hcl : (combinedList s fl append).length ≤ MAX_IMAGES := by
        simp only [combinedList, hval, List.append_nil]
        split <;> simp [hprior]
      omega
    · rfl
  simp only [combinedList] at hcount hsize ⊢
  simp only [selectFiles, hemp, Bool.false_eq_true, if_false]
  simp only [if_pos hcount, if_neg (not_lt.mpr hsize)]
  simp

/-- C2 witness: eleven small images truncate to the first ten with the
count warning. -/
theorem selectFiles_truncation_accepted_witness :
    (initialState.selectedFiles.length ≤ MAX_IMAGES ∧
     (dedupByKey (combinedList initialState capBatch false)).length
       > MAX_IMAGES ∧
     totalBytesOf ((dedupByKey (combinedList initialState capBatch
       false)).take MAX_IMAGES) ≤ MAX_TOTAL_BYTES) ∧
    ((selectFiles noUrl initialState (some capBatch) false).selectedFiles
       = (dedupByKey (combinedList initialState capBatch false)).take
           MAX_IMAGES ∧
     (selectFiles noUrl initialState (some capBatch) false).errorMessage
       = some countWarning) :=
  ⟨⟨of_decide_eq_true rfl, of_decide_eq_true rfl, of_decide_eq_true rfl⟩,
   selectFiles_truncation_accepted noUrl initialState capBatch false
     (of_decide_eq_true rfl) (of_decide_eq_true rfl) (of_decide_eq_true rfl)⟩

/-- C10: the byte budget is checked only after truncation to `MAX_IMAGES`
files: when the first `MAX_IMAGES` deduplicated files fit the budget, the
selection is accepted (first ten entries, rebuilt previews, count
warning), irrespective of the size of the rest of the batch. -/
theorem selectFiles_budget_after_truncation (mkUrl : FileMeta → String)
    (s : WidgetState) (fl : List FileMeta) (append : Bool)
    (hprior : s.selectedFiles.length ≤ MAX_IMAGES)
    (hcount : (dedupByKey (combinedList s fl append)).length > MAX_IMAGES)
    (hsize : totalBytesOf ((dedupByKey (combinedList s fl append)).take
      MAX_IMAGES) ≤ MAX_TOTAL_BYTES) :
    (selectFiles mkUrl s (some fl) append).selectedFiles
      = (dedupByKey (combinedList s fl append)).take MAX_IMAGES ∧
    (selectFiles mkUrl s (some fl) append).previewUrls
      = ((dedupByKey (combinedList s fl append)).take MAX_IMAGES).map mkUrl ∧
    (selectFiles mkUrl s (some fl) append).errorMessage
      = some countWarning := by
  have hemp : (fl.filter isImageTyped).isEmpty = false := by
    rcases hval : fl.filter isImageTyped with _ | ⟨f, rest⟩
    · exfalso
      have hb := dedupByKey_length_le (combinedList s fl append)
      have hcl : (combinedList s fl append).length ≤ MAX_IMAGES := by
        simp only [combinedList, hval, List.append_nil]
        split <;> simp [hprior]
      omega
    · rfl
  simp only [combinedList] at hcount hsize ⊢
  simp only [selectFiles, hemp, Bool.false_eq_true, if_false]
  simp only [if_pos hcount, if_neg (not_lt.mpr hsize)]
  simp

/-- C10 witness: a batch whose full size breaches the budget (30 MB in the
eleventh file) is still accepted as its first ten files, with the
warning. -/
theorem selectFiles_budget_after_truncation_witness :
    totalBytesOf (wideBatch.filter isImageTyped) > MAX_TOTAL_BYTES ∧
    (initialState.selectedFiles.length ≤ MAX_IMAGES ∧
     (dedupByKey (combinedList initialState wideBatch false)).length
       > MAX_IMAGES ∧
     totalBytesOf ((dedupByKey (combinedList initialState wideBatch
       false)).take MAX_IMAGES) ≤ MAX_TOTAL_BYTES) ∧
    ((selectFiles noUrl initialState (some wideBatch) false).selectedFiles
       = (dedupByKey (combinedList initialState wideBatch false)).take
           MAX_IMAGES ∧
     (selectFiles noUrl initialState (some wideBatch) false).previewUrls
       = ((dedupByKey (combinedList initialState wideBatch false)).take
           MAX_IMAGES).map noUrl ∧
     (selectFiles noUrl initialState (some wideBatch) false).errorMessage
       = some countWarning) :=
  ⟨of_decide_eq_true rfl,
   ⟨of_decide_eq_true rfl, of_decide_eq_true rfl, of_decide_eq_true rfl⟩,
   selectFiles_budget_after_truncation noUrl initialState wideBatch false
     (of_decide_eq_true rfl) (of_decide_eq_true rfl) (of_decide_eq_true rfl)⟩

/-- C8 counterexample: an append-mode call with eleven fresh images does
not return the full merged deduplicated list: the result is truncated to
ten files. -/
theorem selectFiles_append_counterexample :
    (selectFiles noUrl initialState (some elevenBatch) true).selectedFiles
      ≠ keepFirstByKey (initialState.selectedFiles
          ++ elevenBatch.filter isImageTyped) := by
  intro h
  have hlen := congrArg List.length h
  have h10 : (selectFiles noUrl initialState (some elevenBatch)
      true).selectedFiles.length = 10 := rfl
  have h11 : (keepFirstByKey (initialState.selectedFiles
      ++ elevenBatch.filter isImageTyped)).length = 11 := rfl
  omega

/-- C8 (amended): an append-mode call whose batch holds at least one image
file, and whose merged deduplicated list respects both caps, results in
exactly the prior selection followed by the incoming image-typed files
with every later duplicate of an earlier composite key removed, first
occurrences kept in order. -/
theorem selectFiles_append_merges_dedups (mkUrl : FileMeta → String)
    (s : WidgetState) (fl : List FileMeta)
    (hne : (fl.filter isImageTyped).isEmpty = false)
    (hcount : (dedupByKey (s.selectedFiles ++ fl.filter isImageTyped)).length
      ≤ MAX_IMAGES)
    (hsize : totalBytesOf (dedupByKey (s.selectedFiles
      ++ fl.filter isImageTyped)) ≤ MAX_TOTAL_BYTES) :
    (selectFiles mkUrl s (some fl) true).selectedFiles
      = keepFirstByKey (s.selectedFiles ++ fl.filter isImageTyped) := by
  have hcomb : (if s.selectedFiles.length > 0
      then s.selectedFiles else []) ++ fl.filter isImageTyped
      = s.selectedFiles ++ fl.filter isImageTyped := by
    rcases hsel : s.selectedFiles with _ | _ <;> simp
  rw [← dedupByKey_eq_keepFirstByKey]
  simp only [selectFiles, hne, Bool.false_eq_true, if_false,
    eq_self_iff_true, true_and, hcomb]
  simp only [if_neg (not_lt.mpr hcount), if_neg (not_lt.mpr hsize)]

/-- C8 witness: appending a batch with one duplicate, one fresh image and
one text file to a two-image selection keeps the prior files, drops the
duplicate and the non-image, and appends the fresh image. -/
theorem selectFiles_append_merges_dedups_witness :
    (((([sampleFile "p2" 100, sampleFile "n3" 50, textFile] :
          List FileMeta).filter isImageTyped).isEmpty = false ∧
      (dedupByKey (({ initialState with selectedFiles :=
          [sampleFile "p1" 100, sampleFile "p2" 100] } :
          WidgetState).selectedFiles
        ++ ([sampleFile "p2" 100, sampleFile "n3" 50, textFile] :
          List FileMeta).filter isImageTyped)).length ≤ MAX_IMAGES ∧
      totalBytesOf (dedupByKey (({ initialState with selectedFiles :=
          [sampleFile "p1" 100, sampleFile "p2" 100] } :
          WidgetState).selectedFiles
        ++ ([sampleFile "p2" 100, sampleFile "n3" 50, textFile] :
          List FileMeta).filter isImageTyped)) ≤ MAX_TOTAL_BYTES) ∧
     (selectFiles noUrl ({ initialState with selectedFiles :=
          [sampleFile "p1" 100, sampleFile "p2" 100] } : WidgetState)
        (some [sampleFile "p2" 100, sampleFile "n3" 50, textFile])
        true).selectedFiles
       = keepFirstByKey (({ initialState with selectedFiles :=
          [sampleFile "p1" 100, sampleFile "p2" 100] } :
          WidgetState).selectedFiles
        ++ ([sampleFile "p2" 100, sampleFile "n3" 50, textFile] :
          List FileMeta).filter isImageTyped)) ∧
    keepFirstByKey (({ initialState with selectedFiles :=
          [sampleFile "p1" 100, sampleFile "p2" 100] } :
          WidgetState).selectedFiles
        ++ ([sampleFile "p2" 100, sampleFile "n3" 50, textFile] :
          List FileMeta).filter isImageTyped)
      = [sampleFile "p1" 100, sampleFile "p2" 100, sampleFile "n3" 50] :=
  ⟨⟨⟨rfl, of_decide_eq_true rfl, of_decide_eq_true rfl⟩,
    selectFiles_append_merges_dedups noUrl _ _ rfl
      (of_decide_eq_true rfl) (of_decide_eq_true rfl)⟩,
   rfl⟩

/-- Preservation of the caps by a single `selectFiles` call. -/
theorem selectFiles_preserves_caps (mkUrl : FileMeta → String)
    (s : WidgetState) (filesLike : Option (List FileMeta)) (append : Bool)
    (hlen : s.selectedFiles.length ≤ MAX_IMAGES)
    (hbytes : totalBytesOf s.selectedFiles ≤ MAX_TOTAL_BYTES) :
    (selectFiles mkUrl s filesLike append).selectedFiles.length
      ≤ MAX_IMAGES ∧
    totalBytesOf (selectFiles mkUrl s filesLike append).selectedFiles
      ≤ MAX_TOTAL_BYTES := by
  rcases filesLike with _ | fl
  · exact ⟨hlen, hbytes⟩
  · cases hemp : (fl.filter isImageTyped).isEmpty with
    | true => simpa [selectFiles, hemp] using ⟨hlen, hbytes⟩
    | false =>
      simp only [selectFiles, hemp, Bool.false_eq_true, if_false]
      split_ifs <;> simp_all [List.length_take]

/-- C9: in every state reachable from the initial empty selection by
`selectFiles` and `handleClear` calls, the selection holds at most
`MAX_IMAGES` files and at most `MAX_TOTAL_BYTES` bytes. -/
theorem reachable_selection_capped (s : WidgetState) (h : Reachable s) :
    s.selectedFiles.length ≤ MAX_IMAGES ∧
    totalBytesOf s.selectedFiles ≤ MAX_TOTAL_BYTES := by
  induction h with
  | init => exact ⟨Nat.zero_le _, Nat.zero_le _⟩
  | select mkUrl s filesLike append _ ih =>
    exact selectFiles_preserves_caps mkUrl s filesLike append ih.1 ih.2
  | clear s _ _ => exact ⟨Nat.zero_le _, Nat.zero_le _⟩

/-- C9 witness: the state after one selection of a single small image is
reachable and satisfies both caps. -/
theorem reachable_selection_capped_witness :
    Reachable (selectFiles noUrl initialState (some [sampleFile "w" 5])
      false) ∧
    ((selectFiles noUrl initialState (some [sampleFile "w" 5])
        false).selectedFiles.length ≤ MAX_IMAGES ∧
     totalBytesOf (selectFiles noUrl initialState
        (some [sampleFile "w" 5]) false).selectedFiles ≤ MAX_TOTAL_BYTES) :=
  ⟨Reachable.select noUrl initialState (some [sampleFile "w" 5]) false
     Reachable.init,
   reachable_selection_capped _
     (Reachable.select noUrl initialState (some [sampleFile "w" 5]) false
       Reachable.init)⟩

/-- C3: submitting with an empty selection and a prompt that trims to the
empty string sets the submit error and issues no network request. -/
theorem handleSubmit_empty_rejected (s : WidgetState)
    (hsel : s.selectedFiles = []) (hins : jsTrim s.instructions = "") :
    (handleSubmit s).1.submitError = some "Enter a prompt or upload images." ∧
    (handleSubmit s).2 = none := by
  simp [handleSubmit, hsel, hins, show "".isEmpty = true from rfl]

/-- C3 witness: a whitespace-only prompt with no files is rejected without
a request. -/
theorem handleSubmit_empty_rejected_witness :
    (({ initialState with instructions := "   " } :
        WidgetState).selectedFiles = [] ∧
     jsTrim ({ initialState with instructions := "   " } :
        WidgetState).instructions = "") ∧
    ((handleSubmit { initialState with instructions := "   " }).1.submitError
       = some "Enter a prompt or upload images." ∧
     (handleSubmit { initialState with instructions := "   " }).2 = none) :=
  ⟨⟨rfl, rfl⟩,
   handleSubmit_empty_rejected { initialState with instructions := "   " }
     rfl rfl⟩

/-!
Claim theorems about the server route.
-/

/-- A list of inline-data items contains no text item. -/
theorem findSome_text_of_inline (l : List InlinePayload) :
    (l.map fun fd => ContentItem.inlineData fd.mimeType fd.data).findSome?
      textOfItem = none := by
  induction l with
  | nil => rfl
  | cons fd rest ih => simp [List.findSome?, textOfItem, ih]

/-- C4 (amended): the text part of the outbound request is the trimmed
user prompt when one is present, the default merge prompt when more than
one image is supplied without a user prompt, and absent otherwise. -/
theorem route_text_part_selection (form : UploadForm) :
    sentTextPart form
      = (if hasUserPrompt form then some (promptTextRaw form)
         else if (formFiles form).length > 1 then some defaultMergePrompt
         else none) := by
  by_cases hp : hasUserPrompt form = true
  · have hlen : (promptTextRaw form).length > 0 := by
      have hx := hp
      simp only [hasUserPrompt, Bool.and_eq_true, decide_eq_true_eq] at hx
      exact hx.1.1
    have hne : promptTextRaw form ≠ "" := by
      intro he
      rw [he] at hlen
      simp at hlen
    have hraw : (promptTextRaw form != "") = true := bne_iff_ne.mpr hne
    simp [sentTextPart, requestContents, effectivePrompt, hp, hraw,
      List.findSome?, textOfItem]
  · rw [if_neg hp]
    by_cases hm : (formFiles form).length > 1
    · have hdm : (defaultMergePrompt != "") = true := by decide
      simp [sentTextPart, requestContents, effectivePrompt, hp, hm, hdm,
        List.findSome?, textOfItem]
    · simp [sentTextPart, requestContents, effectivePrompt, hp, hm,
        findSome_text_of_inline]

/-- A form whose prompt carries surrounding whitespace. -/
def paddedPromptForm : UploadForm :=
  { prompt := some " x ", filesField := [], fileField := none }

/-- C4 counterexample: a user prompt of `" x "` is not sent verbatim: the
text part holds its trimmed form `"x"`. -/
theorem route_text_part_counterexample :
    sentTextPart paddedPromptForm = some "x" ∧
    sentTextPart paddedPromptForm ≠ some " x " := by
  refine ⟨rfl, fun h => ?_⟩
  have h0 : sentTextPart paddedPromptForm = some "x" := rfl
  rw [h0] at h
  exact absurd (Option.some.inj h) (by decide)

/-- C5 (amended): every route response is either a 200 success whose body
carries `ok = true` and whose `size` field is present exactly when the
received total byte size is nonzero, or an error body `{error}` whose
status lies in 4xx/5xx. -/
theorem route_response_shape (form : UploadForm) (apiKey : Option String)
    (ext : ExtOutcome) :
    (∃ b64 mt, routePOST form apiKey ext
        = (200, RouteBody.success true
            (if routeTotalBytes form = 0 then none
             else some (routeTotalBytes form)) b64 mt)) ∨
    (∃ st msg, routePOST form apiKey ext = (st, RouteBody.err msg) ∧
      400 ≤ st ∧ st < 600) := by
  rcases apiKey with _ | k
  · exact Or.inr ⟨500, _, rfl, by omega⟩
  · by_cases hc : (requestContents form).isEmpty = true
    · refine Or.inr ?_
      simp only [routePOST, hc, if_true]
      exact ⟨400, _, rfl, by omega⟩
    · rw [Bool.not_eq_true] at hc
      rcases ext with ⟨status, message⟩ | resp
      · rcases status with _ | n
        · refine Or.inr ?_
          simp only [routePOST, hc, Bool.false_eq_true, if_false]
          exact ⟨502, _, rfl, by omega⟩
        · by_cases hn : 400 ≤ n ∧ n < 600
          · refine Or.inr ?_
            simp only [routePOST, hc, Bool.false_eq_true, if_false, if_pos hn]
            exact ⟨n.toNat, _, rfl, by omega, by omega⟩
          · refine Or.inr ?_
            simp only [routePOST, hc, Bool.false_eq_true, if_false, if_neg hn]
            exact ⟨502, _, rfl, by omega⟩
      · by_cases hb : blockReasonTruthy resp.promptFeedback = true
        · refine Or.inr ?_
          simp only [routePOST, hc, Bool.false_eq_true, if_false, hb, if_true]
          exact ⟨400, _, rfl, by omega⟩
        · rw [Bool.not_eq_true] at hb
          by_cases hf : finishBlocked (firstCandidateOf resp) = true
          · refine Or.inr ?_
            simp only [routePOST, hc, Bool.false_eq_true, if_false, hb, hf,
              if_true]
            exact ⟨400, _, rfl, by omega⟩
          · rw [Bool.not_eq_true] at hf
            rcases hfind : (candidateParts (firstCandidateOf resp)).find?
                partInlineTruthy with _ | ip
            · refine Or.inr ?_
              simp only [routePOST, hc, Bool.false_eq_true, if_false, hb, hf,
                hfind]
              exact ⟨400, _, rfl, by omega⟩
            · refine Or.inl ?_
              simp only [routePOST, hc, Bool.false_eq_true, if_false, hb, hf,
                hfind]
              exact ⟨_, _, rfl⟩

/-- The `size` component of a success body; `none` for an error body. -/
def successSizeField : RouteBody → Option (Option Nat)
  | RouteBody.success _ size _ _ => some size
  | RouteBody.err _ => none

/-- A prompt-only request: no file under either multipart field. -/
def promptOnlyForm : UploadForm :=
  { prompt := some "x", filesField := [], fileField := none }

/-- An external response whose only part is an inline image. -/
def imageOnlyResponse : GenResponse :=
  { promptFeedback := none
    candidates := some
      [{ finishReason := none
         finishMessage := none
         content := some ⟨some [⟨none, some ⟨some "IMG", none⟩⟩]⟩
         safetyRatings := none }] }

/-- C5 counterexample: a successful prompt-only generation responds with a
200 success body whose `size` field is absent (`totalBytes || undefined`
with zero bytes received). -/
theorem route_success_size_counterexample :
    routePOST promptOnlyForm (some "key") (ExtOutcome.ok imageOnlyResponse)
      = (200, RouteBody.success true none "IMG" "image/png") ∧
    successSizeField (routePOST promptOnlyForm (some "key")
      (ExtOutcome.ok imageOnlyResponse)).2 = some none :=
  ⟨by rfl, by rfl⟩

/-- C6: when the external response is not blocked and carries no inline
image data, the route answers 400 with the ' | '-join of the reason fields
present (block reason, finish reason, finish message, model text message,
safety details, in that order), or `Model returned no image` when none is
present. -/
theorem route_no_image_error (form : UploadForm) (k : String)
    (resp : GenResponse)
    (hni : (requestContents form).isEmpty = false)
    (hblock : blockReasonTruthy resp.promptFeedback = false)
    (hfin : finishBlocked (firstCandidateOf resp) = false)
    (himg : (candidateParts (firstCandidateOf resp)).find? partInlineTruthy
      = none) :
    routePOST form (some k) (ExtOutcome.ok resp)
      = (400, RouteBody.err
          (if (noImageReasons resp.promptFeedback
              (firstCandidateOf resp)).isEmpty
           then "Model returned no image"
           else String.intercalate " | "
             (noImageReasons resp.promptFeedback (firstCandidateOf resp)))) := by
  simp only [routePOST, hni, Bool.false_eq_true, if_false, hblock, hfin,
    himg, noImageMessage]

/-- A text-only prompt for the no-image scenario. -/
def drawPromptForm : UploadForm :=
  { prompt := some "draw", filesField := [], fileField := none }

/-- An external response that finished with `STOP` and returned only a
text part. -/
def textOnlyResponse : GenResponse :=
  { promptFeedback := none
    candidates := some
      [{ finishReason := some "STOP"
         finishMessage := none
         content := some ⟨some [⟨some "hello", none⟩]⟩
         safetyRatings := none }] }

/-- C6 witness: a `STOP` finish with a text part produces the message
`Finish reason: STOP | Model message: hello` with status 400. -/
theorem route_no_image_error_witness :
    ((requestContents drawPromptForm).isEmpty = false ∧
     blockReasonTruthy textOnlyResponse.promptFeedback = false ∧
     finishBlocked (firstCandidateOf textOnlyResponse) = false ∧
     (candidateParts (firstCandidateOf textOnlyResponse)).find?
       partInlineTruthy = none) ∧
    routePOST drawPromptForm (some "key") (ExtOutcome.ok textOnlyResponse)
      = (400, RouteBody.err
          (if (noImageReasons textOnlyResponse.promptFeedback
              (firstCandidateOf textOnlyResponse)).isEmpty
           then "Model returned no image"
           else String.intercalate " | "
             (noImageReasons textOnlyResponse.promptFeedback
               (firstCandidateOf textOnlyResponse)))) ∧
    routePOST drawPromptForm (some "key") (ExtOutcome.ok textOnlyResponse)
      = (400, RouteBody.err "Finish reason: STOP | Model message: hello") :=
  ⟨⟨by rfl, by rfl, by rfl, by rfl⟩,
   route_no_image_error drawPromptForm "key" textOnlyResponse (by rfl)
     (by rfl) (by rfl) (by rfl),
   by rfl⟩

/-- C7: a configured route that receives neither an image file (under
`files` or `file`) nor an effective prompt answers 400 with the
missing-input message, independently of the external API, whose call site
is never reached. -/
theorem route_missing_input (form : UploadForm) (k : String)
    (ext : ExtOutcome)
    (hfiles : formFiles form = [])
    (hprompt : hasUserPrompt form = false) :
    routePOST form (some k) ext
      = (400, RouteBody.err "Provide a prompt or at least one image.") ∧
    reachesExternalCall form (some k) = false := by
  have hcontents : requestContents form = [] := by
    simp [requestContents, effectivePrompt, hprompt, hfiles, fileDatas]
  constructor
  · simp [routePOST, hcontents]
  · simp [reachesExternalCall, hcontents]

/-- A form carrying only a non-file entry and the literal prompt
`"null"`. -/
def nullPromptForm : UploadForm :=
  { prompt := some "null"
    filesField := [FormPart.str "stray"]
    fileField := none }

/-- C7 witness: the literal prompt `null` with no file entries is 400
missing input and the external call site is not reached. -/
theorem route_missing_input_witness :
    (formFiles nullPromptForm = [] ∧
     hasUserPrompt nullPromptForm = false) ∧
    (routePOST nullPromptForm (some "key") (ExtOutcome.fail none none)
       = (400, RouteBody.err "Provide a prompt or at least one image.") ∧
     reachesExternalCall nullPromptForm (some "key") = false) :=
  ⟨⟨by rfl, by rfl⟩,
   route_missing_input nullPromptForm "key" (ExtOutcome.fail none none)
     (by rfl) (by rfl)⟩

end AiApp
